import Mathlib

/-!
Shallow embedding of the calibration engine of
`PythonApp/src/calibration/calibration_manager.py` (class `CalibrationManager`),
with the supporting pattern-detector / result-validity pieces modelled from the
specification where the corresponding module is not part of the sources.

Python values are modelled as follows: floats are rationals (`ℚ`) extended with
an explicit infinity where the code manufactures `float("inf")`; dictionaries
are insertion-ordered association lists; raised exceptions are `Except String`;
`None`-able fields are `Option`.
-/

namespace Calibration

/-- Insertion-ordered dictionary lookup (`dict.get(k)` / `k in dict`). -/
def dictFind {α : Type} (m : List (String × α)) (k : String) : Option α :=
  (m.find? (fun p => p.1 = k)).map (fun p => p.2)

/-- Insertion-ordered dictionary update: Python `d[k] = v` replaces the value
in place when the key exists, otherwise appends the new binding. -/
def dictSet {α : Type} (m : List (String × α)) (k : String) (v : α) :
    List (String × α) :=
  match m with
  | [] => [(k, v)]
  | p :: rest => if p.1 = k then (k, v) :: rest else p :: dictSet rest k v

/-- Python `d[k]`: raises `KeyError` when the key is absent. -/
def dictGetExc {α : Type} (m : List (String × α)) (k : String) :
    Except String α :=
  match dictFind m k with
  | some v => Except.ok v
  | none => Except.error ("KeyError: " ++ k)

/-- Python `xs[i]` on a list: raises `IndexError` when out of range. -/
def listGetExc {α : Type} (xs : List α) (i : Nat) : Except String α :=
  match xs.get? i with
  | some v => Except.ok v
  | none => Except.error "IndexError: list index out of range"

/-- An extended non-negative error value: a Python float that is either a
rational or `float("inf")`. -/
inductive ErrVal : Type
  | inf : ErrVal
  | val : ℚ → ErrVal
  deriving DecidableEq, Repr

/-- `x or float("inf")` on an optional float field: Python falsiness sends
both `None` and `0.0` to infinity. -/
def pyOrInf : Option ℚ → ErrVal
  | none => ErrVal.inf
  | some q => if q = 0 then ErrVal.inf else ErrVal.val q

/-- The spec's reading of "absent values treated as infinite": only `None`
becomes infinity, a present `0.0` stays `0.0`. -/
def specToErr : Option ℚ → ErrVal
  | none => ErrVal.inf
  | some q => ErrVal.val q

/-- Binary maximum on extended error values (Python `max`, which returns its
first argument on ties). -/
def ErrVal.emax : ErrVal → ErrVal → ErrVal
  | ErrVal.inf, _ => ErrVal.inf
  | ErrVal.val _, ErrVal.inf => ErrVal.inf
  | ErrVal.val a, ErrVal.val b => ErrVal.val (if a < b then b else a)

/-- Strict comparison of an extended error value against a finite threshold
(Python `max_error < t`; infinity is never below a finite threshold). -/
def ErrVal.ltThresh : ErrVal → ℚ → Bool
  | ErrVal.inf, _ => false
  | ErrVal.val a, t => decide (a < t)

/-- Non-strict order on extended error values. -/
def ErrVal.leE : ErrVal → ErrVal → Bool
  | _, ErrVal.inf => true
  | ErrVal.inf, ErrVal.val _ => false
  | ErrVal.val a, ErrVal.val b => decide (a ≤ b)

/-- A 3×3 matrix / coefficient block, kept as raw rational entries. -/
abbrev Mat : Type := List (List ℚ)

/-- Quality assessment block (`assessment` dict of
`_assess_calibration_quality`). -/
structure QualityAssessment where
  quality_score : String
  recommendations : List String
  rgb_error : ErrVal
  thermal_error : ErrVal
  stereo_error : ErrVal
  deriving DecidableEq, Repr

/-- `CalibrationResult` (its module is not under the sources; fields modelled
from the spec's data model §3 and from every use in `calibration_manager.py`:
all solve fields start `None` and are filled only by the code paths below). -/
structure CalibrationResult where
  device_id : String
  rgb_camera_matrix : Option Mat := none
  rgb_distortion_coeffs : Option (List ℚ) := none
  rgb_rms_error : Option ℚ := none
  thermal_camera_matrix : Option Mat := none
  thermal_distortion_coeffs : Option (List ℚ) := none
  thermal_rms_error : Option ℚ := none
  rotation_matrix : Option Mat := none
  translation_vector : Option (List ℚ) := none
  essential_matrix : Option Mat := none
  fundamental_matrix : Option Mat := none
  stereo_rms_error : Option ℚ := none
  homography_matrix : Option Mat := none
  quality_assessment : Option QualityAssessment := none
  timestamp_set : Bool := false
  deriving DecidableEq, Repr

/-- Modelled from the spec: "A result is **valid** only if intrinsic
calibration succeeded for both modalities" (`CalibrationResult.is_valid`,
whose module is not under the sources). -/
def CalibrationResult.is_valid (r : CalibrationResult) : Bool :=
  r.rgb_camera_matrix.isSome && r.thermal_camera_matrix.isSome

/-- `_assess_calibration_quality`: classifies a result from its three RMS
errors, substituting infinity via Python `or` falsiness, and echoes the
substituted errors. -/
def assess_calibration_quality (r : CalibrationResult) : QualityAssessment :=
  let rgb_error := pyOrInf r.rgb_rms_error
  let thermal_error := pyOrInf r.thermal_rms_error
  let stereo_error := pyOrInf r.stereo_rms_error
  let max_error := (rgb_error.emax thermal_error).emax stereo_error
  let base : QualityAssessment :=
    { quality_score := "UNKNOWN", recommendations := [],
      rgb_error := rgb_error, thermal_error := thermal_error,
      stereo_error := stereo_error }
  if max_error.ltThresh (1/2) then
    { base with quality_score := "EXCELLENT" }
  else if max_error.ltThresh 1 then
    { base with quality_score := "GOOD" }
  else if max_error.ltThresh 2 then
    { base with
        quality_score := "ACCEPTABLE",
        recommendations :=
          ["Consider recapturing some images for better accuracy"] }
  else
    { base with
        quality_score := "POOR",
        recommendations :=
          ["Recapture calibration images",
           "Ensure calibration pattern is clearly visible",
           "Use better lighting conditions"] }

/-- The spec's threshold chain on a maximum error: `< 0.5 → EXCELLENT`,
`< 1.0 → GOOD`, `< 2.0 → ACCEPTABLE`, `>= 2.0 → POOR`. -/
def labelOfMax (m : ErrVal) : String :=
  if m.ltThresh (1/2) then "EXCELLENT"
  else if m.ltThresh 1 then "GOOD"
  else if m.ltThresh 2 then "ACCEPTABLE"
  else "POOR"

/-- The claim's classification, written from the spec's words: thresholds on
`maxError = max(rgbError, thermalError, stereoError)`. -/
def specQualityLabel (rgb thermal stereo : ErrVal) : String :=
  labelOfMax ((rgb.emax thermal).emax stereo)

/-- The spec's recommendation lists: none below ACCEPTABLE, the recapture
hint at ACCEPTABLE, the three hints at POOR. -/
def specRecommendations (rgb thermal stereo : ErrVal) : List String :=
  let m := (rgb.emax thermal).emax stereo
  if m.ltThresh 1 then []
  else if m.ltThresh 2 then
    ["Consider recapturing some images for better accuracy"]
  else
    ["Recapture calibration images",
     "Ensure calibration pattern is clearly visible",
     "Use better lighting conditions"]

/-- Rank of a quality label, higher is better (EXCELLENT > GOOD > ACCEPTABLE
> POOR). -/
def qualityRank : String → Nat
  | "EXCELLENT" => 3
  | "GOOD" => 2
  | "ACCEPTABLE" => 1
  | _ => 0

theorem qualityRank_excellent : qualityRank "EXCELLENT" = 3 := rfl

theorem qualityRank_good : qualityRank "GOOD" = 2 := rfl

theorem qualityRank_acceptable : qualityRank "ACCEPTABLE" = 1 := rfl

theorem qualityRank_poor : qualityRank "POOR" = 0 := rfl

/-- The effective maximum error actually used by the code: absent *or zero*
components become infinity before the maximum is taken. -/
def effMaxError (r : CalibrationResult) : ErrVal :=
  ((pyOrInf r.rgb_rms_error).emax (pyOrInf r.thermal_rms_error)).emax
    (pyOrInf r.stereo_rms_error)

/-- A captured frame for one modality.  The pattern detector and raw pixel
data are external to the sources, so a frame carries its dimensions together
with the (deterministic, per §4.2 of the spec) detection outcome on it. -/
structure CalImage where
  width : Nat
  height : Nat
  detect_ok : Bool
  corners : List (ℚ × ℚ)
  deriving DecidableEq, Repr

/-- Modelled from the spec: `CalibrationProcessor.detect_chessboard_corners`
(module not under the sources).  §4.2: deterministic per image; returns a
success flag plus the ordered 2D corners. -/
def detect_chessboard_corners (img : CalImage) : Bool × List (ℚ × ℚ) :=
  (img.detect_ok, img.corners)

/-- Modelled from the spec: `CalibrationProcessor.create_object_points`
(module not under the sources).  §3/§4.3: the planar pattern's 3D points,
generated once from the corner grid and physical square size, identical for
every view. -/
def create_object_points (size : Nat × Nat) (square : ℚ) :
    List (ℚ × ℚ × ℚ) :=
  (List.range size.2).flatMap (fun j =>
    (List.range size.1).map (fun i => ((i : ℚ) * square, (j : ℚ) * square, 0)))

/-- The per-device pair of parallel frame buffers
(`captured_images[device_id]`). -/
structure DeviceFrames where
  rgb : List CalImage
  thermal : List CalImage
  deriving DecidableEq, Repr

/-- Empty frame buffers allocated by `start_calibration_session`. -/
def emptyFrames : DeviceFrames := { rgb := [], thermal := [] }

/-- The `current_session` dictionary. -/
structure Session where
  session_name : String
  session_folder : String
  device_ids : List String
  start_time : Nat
  pattern_type : String
  pattern_size : Nat × Nat
  square_size : ℚ
  status : String
  end_time : Option Nat := none
  total_captures : Option (List (String × Nat)) := none
  calibrated_devices : Option (List String) := none
  deriving DecidableEq, Repr

/-- The mutable state of a `CalibrationManager` instance, together with the
files it has written (session metadata and per-device calibration results). -/
structure ManagerState where
  current_session : Option Session
  captured_images : List (String × DeviceFrames)
  capture_count : List (String × Nat)
  calibration_results : List (String × CalibrationResult)
  is_capturing : Bool
  pattern_type : String
  chessboard_size : Nat × Nat
  square_size : ℚ
  min_images : Nat
  output_dir : String
  files_meta : List (String × Session)
  files_calib : List (String × CalibrationResult)
  persist_log : List CalibrationResult

/-- `CalibrationManager.__init__`. -/
def initialState (output_dir : String) : ManagerState :=
  { current_session := none, captured_images := [], capture_count := [],
    calibration_results := [], is_capturing := false,
    pattern_type := "chessboard", chessboard_size := (9, 6),
    square_size := 25, min_images := 10, output_dir := output_dir,
    files_meta := [], files_calib := [], persist_log := [] }

/-- `start_calibration_session`: guarded by `is_capturing`, builds the session
dictionary, resets the per-device buffers and counters for the requested
devices, and writes the session metadata file.  `t` models `datetime.now()`. -/
def start_calibration_session (s : ManagerState) (device_ids : List String)
    (session_name : Option String) (t : Nat) :
    Except String (Session × ManagerState) :=
  if s.is_capturing then
    Except.error "Calibration session already in progress"
  else
    let name := match session_name with
      | none => "calibration_" ++ toString t
      | some n => n
    let folder := s.output_dir ++ "/" ++ name
    let sess : Session :=
      { session_name := name, session_folder := folder,
        device_ids := device_ids, start_time := t,
        pattern_type := s.pattern_type, pattern_size := s.chessboard_size,
        square_size := s.square_size, status := "active" }
    let ci := device_ids.foldl (fun m d => dictSet m d emptyFrames)
      s.captured_images
    let cc := device_ids.foldl (fun m d => dictSet m d 0) s.capture_count
    let fm := dictSet s.files_meta (folder ++ "/session_info.json") sess
    Except.ok (sess,
      { s with current_session := some sess, captured_images := ci,
               capture_count := cc, files_meta := fm })

/-- `can_compute_calibration`: per-device readiness, gated on the *raw*
captured-frame counter reaching `min_images`. -/
def can_compute_calibration (s : ManagerState) (device_id : Option String) :
    List (String × Bool) :=
  match s.current_session with
  | none => []
  | some sess =>
    let devs := match device_id with
      | some d => [d]
      | none => sess.device_ids
    devs.map (fun d =>
      (d, decide (s.min_images ≤ (dictFind s.capture_count d).getD 0)))

/-- Outcome entry for one device inside a capture / compute result. -/
structure DeviceOutcome where
  success : Bool
  message : String
  deriving DecidableEq, Repr

/-- The dictionary returned by `capture_calibration_frame`. -/
structure CaptureResult where
  success : Bool
  message : String
  device_results : List (String × DeviceOutcome)
  total_frames : List (String × Nat)
  deriving DecidableEq, Repr

/-- `_simulate_image_capture`: appends one freshly acquired frame pair (the
pixel data itself is external, supplied by `genFrame`) to the device's
buffers, then reads the device counter for the file name — a missing device
key raises at either dictionary access.  Always reports success, as in the
source. -/
def _simulate_image_capture (genFrame : String → CalImage × CalImage)
    (s : ManagerState) (d : String) : Except String (Bool × ManagerState) :=
  let pair := genFrame d
  match dictGetExc s.captured_images d with
  | Except.error e => Except.error e
  | Except.ok fr =>
    let fr1 : DeviceFrames :=
      { rgb := fr.rgb ++ [pair.1], thermal := fr.thermal ++ [pair.2] }
    let s1 := { s with captured_images := dictSet s.captured_images d fr1 }
    match dictGetExc s1.capture_count d with
    | Except.error e => Except.error e
    | Except.ok _ => Except.ok (true, s1)

/-- The per-device loop body of `capture_calibration_frame`; the third
component carries a pending exception (state and partial results at the point
of the raise are kept, as the Python `except` branch observes them). -/
def captureLoop (genFrame : String → CalImage × CalImage) :
    List String → ManagerState → CaptureResult →
    ManagerState × CaptureResult × Option String
  | [], s, res => (s, res, none)
  | d :: ds, s, res =>
    match _simulate_image_capture genFrame s d with
    | Except.error e => (s, res, some e)
    | Except.ok (success, s1) =>
      if success then
        match dictGetExc s1.capture_count d with
        | Except.error e => (s1, res, some e)
        | Except.ok c =>
          let s2 := { s1 with capture_count := dictSet s1.capture_count d (c + 1) }
          let res1 := { res with
              device_results := dictSet res.device_results d
                { success := true, message := "Frame captured successfully" } }
          match dictGetExc s2.capture_count d with
          | Except.error e => (s2, res1, some e)
          | Except.ok c2 =>
            captureLoop genFrame ds s2
              { res1 with total_frames := dictSet res1.total_frames d c2 }
      else
        let res1 := { res with
            device_results := dictSet res.device_results d
              { success := false, message := "Pattern not detected in frame" } }
        match dictGetExc s1.capture_count d with
        | Except.error e => (s1, res1, some e)
        | Except.ok c2 =>
          captureLoop genFrame ds s1
            { res1 with total_frames := dictSet res1.total_frames d c2 }

/-- `capture_calibration_frame`: raises with no active session; returns a
soft failure without touching any state while a capture cycle is in flight;
otherwise runs the capture loop under the in-flight flag, catching loop
exceptions into a failed result, and always drops the flag (`finally`). -/
def capture_calibration_frame (genFrame : String → CalImage × CalImage)
    (broadcast : Except String Nat) (s : ManagerState) :
    Except String (CaptureResult × ManagerState) :=
  match s.current_session with
  | none => Except.error "No active calibration session"
  | some sess =>
    if s.is_capturing then
      Except.ok ({ success := false, message := "Capture already in progress",
                   device_results := [], total_frames := [] }, s)
    else
      let s0 := { s with is_capturing := true }
      let res0 : CaptureResult :=
        { success := true,
          message := "Calibration frames captured successfully",
          device_results := [], total_frames := [] }
      match broadcast with
      | Except.error e =>
        Except.ok ({ res0 with
                       success := false,
                       message := "Capture failed: " ++ e },
                   { s0 with is_capturing := false })
      | Except.ok _ =>
        match captureLoop genFrame sess.device_ids s0 res0 with
        | (s1, res1, some e) =>
          Except.ok ({ res1 with
                         success := false,
                         message := "Capture failed: " ++ e },
                     { s1 with is_capturing := false })
        | (s1, res1, none) =>
          Except.ok (res1, { s1 with is_capturing := false })

/-- Output block of one `cv2.calibrateCamera` call: the returned RMS (whose
Python truthiness decides success), the camera matrix and the distortion
coefficients. -/
structure IntrinsicOut where
  ret : ℚ
  camera_matrix : Mat
  dist_coeffs : List ℚ

/-- Output block of one `cv2.stereoCalibrate` call. -/
structure StereoOut where
  ret : ℚ
  rotation : Mat
  translation : List ℚ
  essential : Mat
  fundamental : Mat

/-- The numerical back ends, external to the repository (OpenCV solvers and
the processor's homography fit, §4.3–§4.5 of the spec); calls may raise. -/
structure Solvers where
  calibrateCamera : List (List (ℚ × ℚ × ℚ)) → List (List (ℚ × ℚ)) →
    (Nat × Nat) → Except String IntrinsicOut
  stereoCalibrate : List (List (ℚ × ℚ × ℚ)) → List (List (ℚ × ℚ)) →
    List (List (ℚ × ℚ)) → Mat → List ℚ → Mat → List ℚ → (Nat × Nat) →
    Except String StereoOut
  compute_homography : List (ℚ × ℚ) → List (ℚ × ℚ) → Mat

/-- The dual-modality frame pairs retained by `_compute_device_calibration`:
exactly those where the detector succeeded on both images. -/
def validPairs (rgb_images thermal_images : List CalImage) :
    List (CalImage × CalImage) :=
  (rgb_images.zip thermal_images).filter (fun p =>
    (detect_chessboard_corners p.1).1 && (detect_chessboard_corners p.2).1)

/-- Final bookkeeping of `_compute_device_calibration`: quality assessment
and timestamp, applied on every path that reaches the end of the function. -/
def finalizeResult (r : CalibrationResult) : CalibrationResult :=
  { r with quality_assessment := some (assess_calibration_quality r),
           timestamp_set := true }

/-- `_compute_device_calibration`: filters frames to dual-modality
correspondences, re-checks the minimum count, then runs the RGB and thermal
intrinsic solves, the stereo solve (only under both intrinsic successes,
truthiness of the returned RMS), and the single-frame homography fit. -/
def _compute_device_calibration (solvers : Solvers)
    (chessboard_size : Nat × Nat) (square_size : ℚ) (min_images : Nat)
    (device_id : String) (rgb_images thermal_images : List CalImage) :
    Except String CalibrationResult :=
  let object_points := create_object_points chessboard_size square_size
  let valid := validPairs rgb_images thermal_images
  let rgb_image_points := valid.map (fun p => (detect_chessboard_corners p.1).2)
  let thermal_image_points :=
    valid.map (fun p => (detect_chessboard_corners p.2).2)
  let valid_object_points := valid.map (fun _ => object_points)
  let result0 : CalibrationResult := { device_id := device_id }
  if valid_object_points.length < min_images then
    Except.ok result0
  else
    match listGetExc rgb_images 0 with
    | Except.error e => Except.error e
    | Except.ok rgb0 =>
      let rgb_image_size := (rgb0.width, rgb0.height)
      match solvers.calibrateCamera valid_object_points rgb_image_points
          rgb_image_size with
      | Except.error e => Except.error e
      | Except.ok rgbOut =>
        let result1 :=
          if rgbOut.ret ≠ 0 then
            { result0 with
                rgb_camera_matrix := some rgbOut.camera_matrix,
                rgb_distortion_coeffs := some rgbOut.dist_coeffs,
                rgb_rms_error := some rgbOut.ret }
          else result0
        match listGetExc thermal_images 0 with
        | Except.error e => Except.error e
        | Except.ok th0 =>
          let thermal_image_size := (th0.width, th0.height)
          match solvers.calibrateCamera valid_object_points
              thermal_image_points thermal_image_size with
          | Except.error e => Except.error e
          | Except.ok thOut =>
            let result2 :=
              if thOut.ret ≠ 0 then
                { result1 with
                    thermal_camera_matrix := some thOut.camera_matrix,
                    thermal_distortion_coeffs := some thOut.dist_coeffs,
                    thermal_rms_error := some thOut.ret }
              else result1
            if rgbOut.ret ≠ 0 ∧ thOut.ret ≠ 0 then
              match solvers.stereoCalibrate valid_object_points
                  rgb_image_points thermal_image_points rgbOut.camera_matrix
                  rgbOut.dist_coeffs thOut.camera_matrix thOut.dist_coeffs
                  rgb_image_size with
              | Except.error e => Except.error e
              | Except.ok st =>
                if st.ret ≠ 0 then
                  match listGetExc thermal_image_points 0 with
                  | Except.error e => Except.error e
                  | Except.ok tp0 =>
                    match listGetExc rgb_image_points 0 with
                    | Except.error e => Except.error e
                    | Except.ok rp0 =>
                      Except.ok (finalizeResult
                        { result2 with
                            rotation_matrix := some st.rotation,
                            translation_vector := some st.translation,
                            essential_matrix := some st.essential,
                            fundamental_matrix := some st.fundamental,
                            stereo_rms_error := some st.ret,
                            homography_matrix :=
                              some (solvers.compute_homography tp0 rp0) })
                else
                  Except.ok (finalizeResult result2)
            else
              Except.ok (finalizeResult result2)

/-- A per-device entry of `compute_calibration`'s `device_results`. -/
structure DeviceEntry where
  success : Bool
  message : String
  rgb_error : Option (Option ℚ) := none
  thermal_error : Option (Option ℚ) := none
  stereo_error : Option (Option ℚ) := none
  quality_score : Option String := none
  deriving DecidableEq, Repr

/-- The dictionary returned by `compute_calibration`. -/
structure ComputeResults where
  success : Bool
  message : String
  device_results : List (String × DeviceEntry)
  deriving DecidableEq, Repr

/-- The `try` body of `compute_calibration`'s per-device iteration; any
exception is caught by the caller into a per-device failure entry, with the
state mutations made before the raise kept (as in Python). -/
def computeDeviceStep (solvers : Solvers) (sess : Session)
    (s : ManagerState) (dev : String) : ManagerState × DeviceEntry :=
  let errEntry : String → DeviceEntry := fun e =>
    { success := false, message := "Calibration error: " ++ e }
  match dictGetExc (can_compute_calibration s (some dev)) dev with
  | Except.error e => (s, errEntry e)
  | Except.ok ready =>
    if !ready then
      match dictGetExc s.capture_count dev with
      | Except.error e => (s, errEntry e)
      | Except.ok cnt =>
        (s, { success := false,
              message := "Insufficient images: " ++ toString cnt ++ "/" ++
                toString s.min_images })
    else
      match dictGetExc s.captured_images dev with
      | Except.error e => (s, errEntry e)
      | Except.ok frames =>
        match _compute_device_calibration solvers s.chessboard_size
            s.square_size s.min_images dev frames.rgb frames.thermal with
        | Except.error e => (s, errEntry e)
        | Except.ok r =>
          if r.is_valid then
            let s1 := { s with
              calibration_results := dictSet s.calibration_results dev r,
              files_calib := dictSet s.files_calib
                (sess.session_folder ++ "/calibration_" ++ dev ++ ".json") r,
              persist_log := s.persist_log ++ [r] }
            match r.quality_assessment with
            | none =>
              (s1, errEntry "AttributeError: NoneType has no attribute get")
            | some qa =>
              (s1, { success := true,
                     message := "Calibration computed successfully",
                     rgb_error := some r.rgb_rms_error,
                     thermal_error := some r.thermal_rms_error,
                     stereo_error := some r.stereo_rms_error,
                     quality_score := some qa.quality_score })
          else
            (s, { success := false,
                  message := "Calibration computation failed" })

/-- The device loop of `compute_calibration`, accumulating the per-device
result dictionary while threading the state. -/
def computeLoop (solvers : Solvers) (sess : Session) :
    List String → ManagerState → List (String × DeviceEntry) →
    ManagerState × List (String × DeviceEntry)
  | [], s, acc => (s, acc)
  | d :: ds, s, acc =>
    let p := computeDeviceStep solvers sess s d
    computeLoop solvers sess ds p.1 (dictSet acc d p.2)

/-- `compute_calibration`: raises with no active session; otherwise runs the
per-device pipeline over the requested devices (all session devices when no
specific device is given), never aborting early, and reports aggregate
success as the conjunction of the per-device successes. -/
def compute_calibration (solvers : Solvers) (s : ManagerState)
    (device_id : Option String) :
    Except String (ComputeResults × ManagerState) :=
  match s.current_session with
  | none => Except.error "No active calibration session"
  | some sess =>
    let devs := match device_id with
      | some d => [d]
      | none => sess.device_ids
    let p := computeLoop solvers sess devs s []
    let all_successful := p.2.all (fun q => q.2.success)
    Except.ok
      ({ success := all_successful,
         message :=
           if all_successful then "Calibration computed successfully"
           else "Some device calibrations failed",
         device_results := p.2 }, p.1)

/-- `get_calibration_result`. -/
def get_calibration_result (s : ManagerState) (device_id : String) :
    Option CalibrationResult :=
  dictFind s.calibration_results device_id

/-- `load_calibration_result`: `CalibrationResult.load_from_file` is not
under the sources; modelled from the spec (§4.7: a persisted result file
round-trips and loads independently of the owning session), so loading
succeeds exactly on files previously written, and any failure is caught into
`false` with the state untouched. -/
def load_calibration_result (s : ManagerState) (device_id : String)
    (calibration_file : String) : Bool × ManagerState :=
  match dictFind s.files_calib calibration_file with
  | some r =>
    (true, { s with
      calibration_results := dictSet s.calibration_results device_id r })
  | none => (false, s)

/-- Runtime images fed to the overlay: a free algebra over the OpenCV image
operations used by `apply_thermal_overlay`, so the produced expression records
exactly which warp, colormap and blend were applied. -/
inductive PyImage : Type
  | raw : Nat → Nat → Nat → PyImage
  | warpPerspective : PyImage → Mat → Nat × Nat → PyImage
  | applyColorMap : PyImage → PyImage
  | addWeighted : PyImage → ℚ → PyImage → ℚ → ℚ → PyImage
  deriving DecidableEq, Repr

/-- `image.shape[1]` (width). -/
def PyImage.width : PyImage → Nat
  | PyImage.raw w _ _ => w
  | PyImage.warpPerspective _ _ d => d.1
  | PyImage.applyColorMap i => i.width
  | PyImage.addWeighted a _ _ _ _ => a.width

/-- `image.shape[0]` (height). -/
def PyImage.height : PyImage → Nat
  | PyImage.raw _ h _ => h
  | PyImage.warpPerspective _ _ d => d.2
  | PyImage.applyColorMap i => i.height
  | PyImage.addWeighted a _ _ _ _ => a.height

/-- `apply_thermal_overlay`: `None` when no stored result for the device or
its homography is absent; otherwise warps the thermal image into RGB pixel
space with the stored homography, applies the pseudo-color map and blends
with weights `1 - alpha` (RGB) and `alpha` (thermal). -/
def apply_thermal_overlay (s : ManagerState) (device_id : String)
    (rgb_image thermal_image : PyImage) (alpha : ℚ) : Option PyImage :=
  match dictFind s.calibration_results device_id with
  | none => none
  | some result =>
    match result.homography_matrix with
    | none => none
    | some h =>
      let thermal_warped :=
        PyImage.warpPerspective thermal_image h
          (rgb_image.width, rgb_image.height)
      let thermal_colored := PyImage.applyColorMap thermal_warped
      some (PyImage.addWeighted rgb_image (1 - alpha) thermal_colored alpha 0)

/-- The session summary dictionary returned by `end_calibration_session`. -/
structure EndSummary where
  success : Bool
  message : Option String := none
  session_name : Option String := none
  total_captures : Option (List (String × Nat)) := none
  calibrated_devices : Option (List String) := none
  session_folder : Option String := none
  deriving DecidableEq, Repr

/-- `end_calibration_session`: soft failure when no session is active;
otherwise stamps the session (end time, completed status, final totals,
calibrated device ids), overwrites the session metadata file, and
unconditionally resets the in-memory session state — buffers, counters and
the in-flight flag — while the stored result map is left as is. -/
def end_calibration_session (s : ManagerState) (t : Nat) :
    EndSummary × ManagerState :=
  match s.current_session with
  | none => ({ success := false, message := some "No active session" }, s)
  | some sess =>
    let stamped : Session :=
      { sess with
          end_time := some t,
          status := "completed",
          total_captures := some s.capture_count,
          calibrated_devices := some (s.calibration_results.map (fun p => p.1)) }
    let fm := dictSet s.files_meta (stamped.session_folder ++ "/session_info.json")
      stamped
    let summary : EndSummary :=
      { success := true,
        session_name := some stamped.session_name,
        total_captures := some s.capture_count,
        calibrated_devices := some (s.calibration_results.map (fun p => p.1)),
        session_folder := some stamped.session_folder }
    (summary,
     { s with
         current_session := none,
         captured_images := [],
         capture_count := [],
         is_capturing := false,
         files_meta := fm })

/-- Every calibration result held in memory, and every result file currently
on disk, was written to persistent storage at some point (`persist_log` is
the write history of `_save_calibration_result`): the "no result survives
unless explicitly persisted first" invariant. -/
def resultsPersisted (s : ManagerState) : Prop :=
  (∀ p ∈ s.calibration_results, p.2 ∈ s.persist_log) ∧
  (∀ f ∈ s.files_calib, f.2 ∈ s.persist_log)

/-! ### Dictionary lemmas -/

theorem dictFind_dictSet {α : Type} (m : List (String × α)) (k k' : String)
    (v : α) :
    dictFind (dictSet m k v) k' =
      if k' = k then some v else dictFind m k' := by
  induction m with
  | nil =>
    by_cases h : k' = k
    · subst h; simp [dictSet, dictFind, List.find?]
    · have hk : (decide (k = k')) = false := by
        simp only [decide_eq_false_iff_not]
        exact fun hh => h hh.symm
      simp [dictSet, dictFind, List.find?, hk, h]
  | cons p rest ih =>
    by_cases hp : p.1 = k
    · by_cases h : k' = k
      · subst h
        simp [dictSet, hp, dictFind, List.find?]
      · have hk : (decide (k = k')) = false := by
          simp only [decide_eq_false_iff_not]
          exact fun hh => h hh.symm
        have hpk : (decide (p.1 = k')) = false := by
          simp only [decide_eq_false_iff_not]
          rw [hp]; exact fun hh => h hh.symm
        simp [dictSet, hp, dictFind, List.find?, hk, hpk, h]
    · by_cases h : k' = k
      · subst h
        have hpk : (decide (p.1 = k')) = false := by
          simp only [decide_eq_false_iff_not]; exact hp
        simp only [dictSet, hp, if_neg, not_false_iff]
        simp only [dictFind, List.find?, hpk] at *
        simpa using ih
      · simp only [dictSet, hp, if_neg, not_false_iff]
        by_cases hpk : p.1 = k'
        · simp [dictFind, List.find?, hpk, h]
        · have hpk' : (decide (p.1 = k')) = false := by
            simp only [decide_eq_false_iff_not]; exact hpk
          simp only [dictFind, List.find?, hpk'] at *
          simpa [h] using ih

theorem mem_dictSet {α : Type} {m : List (String × α)} {k : String} {v : α}
    {p : String × α} (h : p ∈ dictSet m k v) : p ∈ m ∨ p = (k, v) := by
  induction m with
  | nil => simpa [dictSet] using h
  | cons q rest ih =>
    by_cases hq : q.1 = k
    · simp only [dictSet, hq, if_pos, List.mem_cons] at h
      rcases h with h1 | h1
      · right; exact h1
      · left; exact List.mem_cons_of_mem _ h1
    · simp only [dictSet, hq, if_neg, not_false_iff, List.mem_cons] at h
      rcases h with h1 | h1
      · left; simp [h1]
      · rcases ih h1 with h2 | h2
        · left; exact List.mem_cons_of_mem _ h2
        · right; exact h2

theorem self_mem_dictSet {α : Type} (m : List (String × α)) (k : String)
    (v : α) : (k, v) ∈ dictSet m k v := by
  induction m with
  | nil => simp [dictSet]
  | cons q rest ih =>
    by_cases hq : q.1 = k <;> simp [dictSet, hq, ih]

/-! ### Quality-assessor lemmas -/

theorem emax_inf_left (a : ErrVal) : ErrVal.inf.emax a = ErrVal.inf := rfl

theorem emax_inf_right (a : ErrVal) : a.emax ErrVal.inf = ErrVal.inf := by
  cases a <;> rfl

theorem ErrVal.ltThresh_mono {m : ErrVal} {a b : ℚ}
    (h : m.ltThresh a = true) (hab : a ≤ b) : m.ltThresh b = true := by
  cases m with
  | inf => simp [ErrVal.ltThresh] at h
  | val q =>
    simp only [ErrVal.ltThresh, decide_eq_true_eq] at *
    linarith

theorem assess_quality_score (r : CalibrationResult) :
    (assess_calibration_quality r).quality_score = labelOfMax (effMaxError r) := by
  simp only [assess_calibration_quality, labelOfMax, effMaxError]
  split_ifs <;> rfl

theorem assess_rgb_error (r : CalibrationResult) :
    (assess_calibration_quality r).rgb_error = pyOrInf r.rgb_rms_error := by
  simp only [assess_calibration_quality]
  split_ifs <;> rfl

theorem assess_thermal_error (r : CalibrationResult) :
    (assess_calibration_quality r).thermal_error = pyOrInf r.thermal_rms_error := by
  simp only [assess_calibration_quality]
  split_ifs <;> rfl

theorem assess_stereo_error (r : CalibrationResult) :
    (assess_calibration_quality r).stereo_error = pyOrInf r.stereo_rms_error := by
  simp only [assess_calibration_quality]
  split_ifs <;> rfl

theorem assess_recommendations (r : CalibrationResult) :
    (assess_calibration_quality r).recommendations =
      specRecommendations (pyOrInf r.rgb_rms_error)
        (pyOrInf r.thermal_rms_error) (pyOrInf r.stereo_rms_error) := by
  simp only [assess_calibration_quality, specRecommendations]
  split_ifs with h1 h2 h3 <;>
    first
      | rfl
      | exact absurd (ErrVal.ltThresh_mono h1 (by norm_num)) h2

theorem labelOfMax_antitone {m1 m2 : ErrVal} (h : ErrVal.leE m1 m2 = true) :
    qualityRank (labelOfMax m2) ≤ qualityRank (labelOfMax m1) := by
  cases m1 with
  | inf =>
    cases m2 with
    | inf => exact le_refl _
    | val b => simp [ErrVal.leE] at h
  | val a =>
    cases m2 with
    | inf =>
      have : labelOfMax ErrVal.inf = "POOR" := rfl
      rw [this]
      exact Nat.zero_le _
    | val b =>
      simp only [ErrVal.leE, decide_eq_true_eq] at h
      simp only [labelOfMax, ErrVal.ltThresh, decide_eq_true_eq]
      split_ifs <;> first | decide | linarith

/-- The claim's maximum error, as stated: absent values become infinite but a
present zero stays zero. -/
def specMaxError (r : CalibrationResult) : ErrVal :=
  ((specToErr r.rgb_rms_error).emax (specToErr r.thermal_rms_error)).emax
    (specToErr r.stereo_rms_error)

/-- C3 counterexample: at RMS errors (0, 0, 0) — all present, so the claim's
`maxError` is `0 < 0.5` and its thresholds give EXCELLENT — the assessor
returns POOR, because a present `0.0` is falsy under `or` and becomes
infinity. -/
theorem C3_counterexample_zero_errors :
    specQualityLabel (specToErr (some 0)) (specToErr (some 0))
        (specToErr (some 0)) = "EXCELLENT" ∧
    (assess_calibration_quality
        { device_id := "device_1", rgb_rms_error := some 0,
          thermal_rms_error := some 0,
          stereo_rms_error := some 0 }).quality_score = "POOR" := by
  constructor
  · norm_num [specQualityLabel, labelOfMax, specToErr, ErrVal.emax,
      ErrVal.ltThresh]
  · norm_num [assess_calibration_quality, pyOrInf, ErrVal.emax,
      ErrVal.ltThresh]

/-- C3 (amended: a present error of exactly `0.0` is treated as absent, i.e.
infinite, by Python falsiness): for every calibration result — totally over
the extended error domain including infinity — the assessor labels EXCELLENT
below 0.5, GOOD below 1.0, ACCEPTABLE below 2.0 with a recapture
recommendation, POOR at 2.0 and above with the three recommendations, on the
maximum of the three treated errors, and echoes the three treated errors. -/
theorem C3_quality_assessment_characterization (r : CalibrationResult) :
    (assess_calibration_quality r).quality_score =
      specQualityLabel (pyOrInf r.rgb_rms_error)
        (pyOrInf r.thermal_rms_error) (pyOrInf r.stereo_rms_error) ∧
    (assess_calibration_quality r).recommendations =
      specRecommendations (pyOrInf r.rgb_rms_error)
        (pyOrInf r.thermal_rms_error) (pyOrInf r.stereo_rms_error) ∧
    (assess_calibration_quality r).rgb_error = pyOrInf r.rgb_rms_error ∧
    (assess_calibration_quality r).thermal_error = pyOrInf r.thermal_rms_error ∧
    (assess_calibration_quality r).stereo_error = pyOrInf r.stereo_rms_error :=
  ⟨by rw [assess_quality_score]; rfl,
   assess_recommendations r, assess_rgb_error r,
   assess_thermal_error r, assess_stereo_error r⟩

/-- C4 counterexample: between the error triples (0, 0, 0) and
(0.7, 0.7, 0.7) the claim's `maxError` strictly increases across the 0.5
boundary, yet the label produced by the assessor is *raised* from POOR to
GOOD. -/
theorem C4_counterexample_zero_crossing :
    ErrVal.leE
        (specMaxError
          { device_id := "device_1", rgb_rms_error := some 0,
            thermal_rms_error := some 0, stereo_rms_error := some 0 })
        (specMaxError
          { device_id := "device_1", rgb_rms_error := some (7/10),
            thermal_rms_error := some (7/10),
            stereo_rms_error := some (7/10) }) = true ∧
    ErrVal.leE
        (specMaxError
          { device_id := "device_1", rgb_rms_error := some (7/10),
            thermal_rms_error := some (7/10),
            stereo_rms_error := some (7/10) })
        (specMaxError
          { device_id := "device_1", rgb_rms_error := some 0,
            thermal_rms_error := some 0, stereo_rms_error := some 0 }) =
      false ∧
    qualityRank ((assess_calibration_quality
        { device_id := "device_1", rgb_rms_error := some 0,
          thermal_rms_error := some 0,
          stereo_rms_error := some 0 }).quality_score) <
      qualityRank ((assess_calibration_quality
        { device_id := "device_1", rgb_rms_error := some (7/10),
          thermal_rms_error := some (7/10),
          stereo_rms_error := some (7/10) }).quality_score) := by
  refine ⟨?_, ?_, ?_⟩ <;>
    norm_num [specMaxError, specToErr, ErrVal.emax, ErrVal.leE,
      assess_calibration_quality, pyOrInf, ErrVal.ltThresh,
      qualityRank_excellent, qualityRank_good, qualityRank_acceptable,
      qualityRank_poor]

/-- C4 (amended: the maximum error is taken after Python falsiness, i.e.
absent or exactly-zero errors count as infinite): for every pair of results
whose effective maximum error does not decrease, the quality label is lowered
or held, never raised. -/
theorem C4_quality_label_antitone (r1 r2 : CalibrationResult)
    (h : ErrVal.leE (effMaxError r1) (effMaxError r2) = true) :
    qualityRank ((assess_calibration_quality r2).quality_score) ≤
      qualityRank ((assess_calibration_quality r1).quality_score) := by
  rw [assess_quality_score, assess_quality_score]
  exact labelOfMax_antitone h

/-- C4 witness: errors (0.3, 0.3, 0.3) against (1.5, 1.5, 1.5). -/
theorem C4_quality_label_antitone_witness :
    ErrVal.leE
        (effMaxError
          { device_id := "device_1", rgb_rms_error := some (3/10),
            thermal_rms_error := some (3/10),
            stereo_rms_error := some (3/10) })
        (effMaxError
          { device_id := "device_1", rgb_rms_error := some (3/2),
            thermal_rms_error := some (3/2),
            stereo_rms_error := some (3/2) }) = true ∧
    qualityRank ((assess_calibration_quality
        { device_id := "device_1", rgb_rms_error := some (3/2),
          thermal_rms_error := some (3/2),
          stereo_rms_error := some (3/2) }).quality_score) ≤
      qualityRank ((assess_calibration_quality
        { device_id := "device_1", rgb_rms_error := some (3/10),
          thermal_rms_error := some (3/10),
          stereo_rms_error := some (3/10) }).quality_score) :=
  ⟨by norm_num [effMaxError, pyOrInf, ErrVal.emax, ErrVal.leE],
   C4_quality_label_antitone _ _
     (by norm_num [effMaxError, pyOrInf, ErrVal.emax, ErrVal.leE])⟩

/-- C10: in every result where one of the three RMS errors is exactly `0.0`,
the `or`-falsiness substitution turns that error into infinity, so the
maximum is infinite and the result is classified POOR (never EXCELLENT), with
infinity echoed for the zero error. -/
theorem C10_zero_error_is_poor (r : CalibrationResult)
    (h : r.rgb_rms_error = some 0 ∨ r.thermal_rms_error = some 0 ∨
      r.stereo_rms_error = some 0) :
    (assess_calibration_quality r).quality_score = "POOR" ∧
    (r.rgb_rms_error = some 0 →
      (assess_calibration_quality r).rgb_error = ErrVal.inf) ∧
    (r.thermal_rms_error = some 0 →
      (assess_calibration_quality r).thermal_error = ErrVal.inf) ∧
    (r.stereo_rms_error = some 0 →
      (assess_calibration_quality r).stereo_error = ErrVal.inf) := by
  have hmax : effMaxError r = ErrVal.inf := by
    rcases h with h | h | h <;>
      simp [effMaxError, h, pyOrInf, emax_inf_left, emax_inf_right]
  refine ⟨?_, ?_, ?_, ?_⟩
  · rw [assess_quality_score, hmax]; rfl
  · intro hz; rw [assess_rgb_error, hz]; simp [pyOrInf]
  · intro hz; rw [assess_thermal_error, hz]; simp [pyOrInf]
  · intro hz; rw [assess_stereo_error, hz]; simp [pyOrInf]

/-- C9: `capture_calibration_frame` raises `NoActiveSession` when no session
is active, and returns `{success: false}` with the state — counters, frame
buffers and session metadata — completely unchanged when a capture cycle is
already in flight. -/
theorem C9_capture_guards (genFrame : String → CalImage × CalImage)
    (broadcast : Except String Nat) (s : ManagerState) :
    (s.current_session = none →
      capture_calibration_frame genFrame broadcast s =
        Except.error "No active calibration session") ∧
    (s.current_session.isSome = true → s.is_capturing = true →
      capture_calibration_frame genFrame broadcast s =
        Except.ok ({ success := false,
                     message := "Capture already in progress",
                     device_results := [], total_frames := [] }, s)) := by
  constructor
  · intro h
    simp [capture_calibration_frame, h]
  · intro h1 h2
    match hs : s.current_session with
    | none => rw [hs] at h1; simp at h1
    | some sess => simp [capture_calibration_frame, hs, h2]

/-- C9 witness: the fresh manager raises on capture; a manager with an active
session and the in-flight flag set returns the soft failure unchanged. -/
theorem C9_capture_guards_witness :
    capture_calibration_frame (fun _ => (⟨640, 480, true, []⟩, ⟨320, 240, true, []⟩))
        (Except.ok 1) (initialState "calibration_data") =
      Except.error "No active calibration session" ∧
    capture_calibration_frame (fun _ => (⟨640, 480, true, []⟩, ⟨320, 240, true, []⟩))
        (Except.ok 1)
        { initialState "calibration_data" with
            current_session := some
              { session_name := "session_1",
                session_folder := "calibration_data/session_1",
                device_ids := ["device_1"], start_time := 0,
                pattern_type := "chessboard", pattern_size := (9, 6),
                square_size := 25, status := "active" },
            is_capturing := true } =
      Except.ok ({ success := false,
                   message := "Capture already in progress",
                   device_results := [], total_frames := [] },
                 { initialState "calibration_data" with
                     current_session := some
                       { session_name := "session_1",
                         session_folder := "calibration_data/session_1",
                         device_ids := ["device_1"], start_time := 0,
                         pattern_type := "chessboard", pattern_size := (9, 6),
                         square_size := 25, status := "active" },
                     is_capturing := true }) :=
  ⟨(C9_capture_guards _ _ _).1 rfl, (C9_capture_guards _ _ _).2 rfl rfl⟩

/-- C8: `apply_thermal_overlay` returns `None` exactly when no result is
stored for the device or the stored result's homography is absent; otherwise
it returns the thermal image warped by the stored homography into the RGB
image's pixel space, pseudo-colored, and alpha-blended with weight `1-alpha`
on the RGB image and `alpha` on the thermal image. -/
theorem C8_overlay_characterization (s : ManagerState) (device_id : String)
    (rgb_image thermal_image : PyImage) (alpha : ℚ) :
    ((dictFind s.calibration_results device_id = none ∨
      (∃ r, dictFind s.calibration_results device_id = some r ∧
        r.homography_matrix = none)) ↔
      apply_thermal_overlay s device_id rgb_image thermal_image alpha =
        none) ∧
    (∀ r h, dictFind s.calibration_results device_id = some r →
      r.homography_matrix = some h →
      apply_thermal_overlay s device_id rgb_image thermal_image alpha =
        some (PyImage.addWeighted rgb_image (1 - alpha)
          (PyImage.applyColorMap (PyImage.warpPerspective thermal_image h
            (rgb_image.width, rgb_image.height))) alpha 0)) := by
  constructor
  · constructor
    · rintro (h | ⟨r, hr, hh⟩)
      · simp [apply_thermal_overlay, h]
      · simp [apply_thermal_overlay, hr, hh]
    · intro h
      match hf : dictFind s.calibration_results device_id with
      | none => exact Or.inl rfl
      | some r =>
        match hh : r.homography_matrix with
        | none => exact Or.inr ⟨r, rfl, hh⟩
        | some hom => simp [apply_thermal_overlay, hf, hh] at h
  · intro r h hr hh
    simp [apply_thermal_overlay, hr, hh]

/-- C8 witness: with a stored identity homography for the device, the overlay
is the blended expression; for an unknown device it is `None`. -/
theorem C8_overlay_characterization_witness :
    apply_thermal_overlay
        { initialState "calibration_data" with
            calibration_results := [("device_1",
              { device_id := "device_1",
                homography_matrix :=
                  some [[1, 0, 0], [0, 1, 0], [0, 0, 1]] })] }
        "device_1" (PyImage.raw 640 480 0) (PyImage.raw 320 240 1) (3/10) =
      some (PyImage.addWeighted (PyImage.raw 640 480 0) (1 - 3/10)
        (PyImage.applyColorMap (PyImage.warpPerspective (PyImage.raw 320 240 1)
          [[1, 0, 0], [0, 1, 0], [0, 0, 1]]
          ((PyImage.raw 640 480 0).width, (PyImage.raw 640 480 0).height)))
        (3/10) 0) ∧
    apply_thermal_overlay (initialState "calibration_data") "device_1"
        (PyImage.raw 640 480 0) (PyImage.raw 320 240 1) (3/10) = none :=
  ⟨(C8_overlay_characterization _ _ _ _ _).2 _ _ rfl rfl,
   (C8_overlay_characterization _ _ _ _ _).1.mp (Or.inl rfl)⟩

/-- The frame returned by the simulated acquisition in the C1 scenario. -/
def c1Image : CalImage :=
  { width := 640, height := 480, detect_ok := true, corners := [] }

/-- One capture cycle of the C1 scenario. -/
def c1Capture (s : ManagerState) : ManagerState :=
  match capture_calibration_frame (fun _ => (c1Image, c1Image))
      (Except.ok 1) s with
  | Except.ok p => p.2
  | Except.error _ => s

/-- The C1 failing state: a session started for `device_1` followed by five
capture cycles, no capture in flight. -/
def c1State : ManagerState :=
  match start_calibration_session (initialState "calibration_data")
      ["device_1"] (some "session_1") 0 with
  | Except.ok p => c1Capture (c1Capture (c1Capture (c1Capture (c1Capture p.2))))
  | Except.error _ => initialState "calibration_data"

/-- C1 (code bug): in a state with an active calibration session — reached by
`start` followed by five capture cycles — and no capture cycle in flight,
a second `start` does not fail with a session conflict: it succeeds,
replaces the session, and resets the prior session's per-device counter from
5 to 0 (the code guards `start` on the capture-in-flight flag, not on the
active-session flag its own error message describes). -/
theorem C1_start_overwrites_active_session :
    c1State.current_session.isSome = true ∧
    c1State.is_capturing = false ∧
    dictFind c1State.capture_count "device_1" = some 5 ∧
    (start_calibration_session c1State ["device_1"] (some "session_2")
        9).toOption.map (fun p => dictFind p.2.capture_count "device_1") =
      some (some 0) ∧
    (start_calibration_session c1State ["device_1"] (some "session_2")
        9).toOption.map
        (fun p => p.2.current_session.map (fun sess => sess.session_name)) =
      some (some "session_2") := by
  refine ⟨rfl, rfl, rfl, rfl, rfl⟩

/-- C2: when a device's raw captured-frame count has reached the minimum
(`canCompute` reports true) but the dual-modality correspondences — only
frames where the pattern was detected in both the RGB and the thermal image
are retained — number fewer than the minimum, the per-device solve returns
the bare result with no solve field populated (an invalid result), and the
compute step records a per-device failure, storing and persisting nothing. -/
theorem C2_insufficient_valid_correspondences (solvers : Solvers)
    (sess : Session) (s : ManagerState) (dev : String) (frames : DeviceFrames)
    (himg : dictFind s.captured_images dev = some frames)
    (hready : dictFind (can_compute_calibration s (some dev)) dev = some true)
    (hval : (validPairs frames.rgb frames.thermal).length < s.min_images) :
    _compute_device_calibration solvers s.chessboard_size s.square_size
        s.min_images dev frames.rgb frames.thermal =
      Except.ok { device_id := dev } ∧
    ({ device_id := dev } : CalibrationResult).is_valid = false ∧
    computeDeviceStep solvers sess s dev =
      (s, { success := false,
            message := "Calibration computation failed" }) := by
  have hcomp : _compute_device_calibration solvers s.chessboard_size
      s.square_size s.min_images dev frames.rgb frames.thermal =
      Except.ok { device_id := dev } := by
    simp only [_compute_device_calibration, List.length_map]
    rw [if_pos hval]
  refine ⟨hcomp, rfl, ?_⟩
  simp only [computeDeviceStep, dictGetExc, hready, himg, hcomp,
    Bool.not_true, CalibrationResult.is_valid]
  simp [CalibrationResult.is_valid]

/-- Solvers used in the C2 witness scenario (never reached). -/
def c2Solvers : Solvers :=
  { calibrateCamera := fun _ _ _ =>
      Except.ok { ret := 1, camera_matrix := [], dist_coeffs := [] },
    stereoCalibrate := fun _ _ _ _ _ _ _ _ =>
      Except.ok { ret := 1, rotation := [], translation := [],
                  essential := [], fundamental := [] },
    compute_homography := fun _ _ => [] }

/-- C2 witness session. -/
def c2Sess : Session :=
  { session_name := "session_1", session_folder := "calibration_data/session_1",
    device_ids := ["device_1"], start_time := 0,
    pattern_type := "chessboard", pattern_size := (9, 6), square_size := 25,
    status := "active" }

/-- C2 witness frame buffers: ten raw frame pairs, but thermal detection
failed on the last one, leaving only nine dual-modality correspondences. -/
def c2Frames : DeviceFrames :=
  { rgb := List.replicate 10 ⟨640, 480, true, []⟩,
    thermal := List.replicate 9 ⟨320, 240, true, []⟩ ++ [⟨320, 240, false, []⟩] }

/-- C2 witness state: the raw counter shows ten captures, meeting the
minimum of ten. -/
def c2State : ManagerState :=
  { initialState "calibration_data" with
      current_session := some c2Sess,
      capture_count := [("device_1", 10)],
      captured_images := [("device_1", c2Frames)] }

/-- C2 witness: `canCompute` reports true on the raw count of ten, yet with
only nine dual-modality correspondences the solve yields the invalid bare
result and the step reports failure. -/
theorem C2_insufficient_valid_correspondences_witness :
    dictFind (can_compute_calibration c2State (some "device_1")) "device_1" =
      some true ∧
    (validPairs c2Frames.rgb c2Frames.thermal).length = 9 ∧
    computeDeviceStep c2Solvers c2Sess c2State "device_1" =
      (c2State, { success := false,
                  message := "Calibration computation failed" }) :=
  ⟨by decide, by decide,
   (C2_insufficient_valid_correspondences c2Solvers c2Sess c2State "device_1"
     c2Frames rfl rfl (by decide)).2.2⟩

/-- C6: the stereo fields (rotation, translation, essential and fundamental
matrices, stereo RMS error) and the homography are populated only when both
intrinsic solves succeeded: whenever the computed result lacks either
intrinsic camera matrix (i.e. an intrinsic solve failed, so its fields were
never filled), all stereo fields and the homography are empty and the result
is invalid.  Contrapositively, any populated stereo/homography field forces
both intrinsic solves to have succeeded. -/
theorem C6_stereo_requires_both_intrinsics (solvers : Solvers)
    (cb : Nat × Nat) (sq : ℚ) (minI : Nat) (dev : String)
    (rgbs thermals : List CalImage) (r : CalibrationResult)
    (hok : _compute_device_calibration solvers cb sq minI dev rgbs thermals =
      Except.ok r)
    (hfail : r.rgb_camera_matrix = none ∨ r.thermal_camera_matrix = none) :
    r.rotation_matrix = none ∧ r.translation_vector = none ∧
    r.essential_matrix = none ∧ r.fundamental_matrix = none ∧
    r.stereo_rms_error = none ∧ r.homography_matrix = none ∧
    r.is_valid = false := by
  simp only [_compute_device_calibration] at hok
  split at hok
  · -- insufficient correspondences: the bare result
    cases hok
    simp [CalibrationResult.is_valid]
  · split at hok
    · simp at hok
    · split at hok
      · simp at hok
      · split at hok
        · simp at hok
        · split at hok
          · simp at hok
          · rename_i rgbOut _ _ thOut
            split at hok
            · rename_i hboth
              split at hok
              · simp at hok
              · rename_i st
                split at hok
                · split at hok
                  · simp at hok
                  · split at hok
                    · simp at hok
                    · -- full stereo population: both intrinsics succeeded,
                      -- contradicting hfail
                      cases hok
                      exfalso
                      rcases hfail with hf | hf <;>
                        simp [finalizeResult, hboth.1, hboth.2] at hf
                · -- stereo solve falsy: result2 with both intrinsics set,
                  -- contradicting hfail
                  cases hok
                  exfalso
                  rcases hfail with hf | hf <;>
                    simp [finalizeResult, hboth.1, hboth.2] at hf
            · -- an intrinsic solve failed: stereo skipped entirely
              rename_i hnboth
              cases hok
              split
              case isTrue h1 =>
                split
                case isTrue h2 =>
                  exact absurd (And.intro (by assumption) (by assumption))
                    hnboth
                case isFalse h2 =>
                  simp [finalizeResult, CalibrationResult.is_valid]
              case isFalse h1 =>
                split
                case isTrue h2 =>
                  simp [finalizeResult, CalibrationResult.is_valid]
                case isFalse h2 =>
                  simp [finalizeResult, CalibrationResult.is_valid]

instance exceptDecEq {ε α : Type} [DecidableEq ε] [DecidableEq α] :
    DecidableEq (Except ε α) := fun x y =>
  match x, y with
  | Except.ok a, Except.ok b =>
    if h : a = b then isTrue (by rw [h])
    else isFalse (by intro hc; cases hc; exact h rfl)
  | Except.error e, Except.error f =>
    if h : e = f then isTrue (by rw [h])
    else isFalse (by intro hc; cases hc; exact h rfl)
  | Except.ok _, Except.error _ => isFalse (by intro hc; cases hc)
  | Except.error _, Except.ok _ => isFalse (by intro hc; cases hc)

/-- Solvers for the C6 witness: the intrinsic solve reports a falsy RMS of
zero at the thermal image size and a truthy RMS of one at the RGB size. -/
def c6Solvers : Solvers :=
  { calibrateCamera := fun _ _ sz =>
      Except.ok { ret := if sz.1 = 640 then 1 else 0,
                  camera_matrix := [[1]], dist_coeffs := [0] },
    stereoCalibrate := fun _ _ _ _ _ _ _ _ =>
      Except.ok { ret := 1, rotation := [[1]], translation := [0],
                  essential := [[1]], fundamental := [[1]] },
    compute_homography := fun _ _ => [[1]] }

/-- The result computed in the C6 witness scenario: the RGB intrinsic solve
succeeded, the thermal one failed, stereo and homography left empty. -/
def c6Result : CalibrationResult :=
  { device_id := "device_1",
    rgb_camera_matrix := some [[1]],
    rgb_distortion_coeffs := some [0],
    rgb_rms_error := some 1,
    quality_assessment := some
      { quality_score := "POOR",
        recommendations :=
          ["Recapture calibration images",
           "Ensure calibration pattern is clearly visible",
           "Use better lighting conditions"],
        rgb_error := ErrVal.val 1,
        thermal_error := ErrVal.inf,
        stereo_error := ErrVal.inf },
    timestamp_set := true }

/-- C6 witness: one dual-detected frame pair, thermal intrinsic solve fails;
the computed result has every stereo field and the homography empty and is
invalid. -/
theorem C6_stereo_requires_both_intrinsics_witness :
    _compute_device_calibration c6Solvers (9, 6) 25 1 "device_1"
        [⟨640, 480, true, [(0, 0)]⟩] [⟨320, 240, true, [(0, 0)]⟩] =
      Except.ok c6Result ∧
    c6Result.thermal_camera_matrix = none ∧
    (c6Result.rotation_matrix = none ∧ c6Result.translation_vector = none ∧
     c6Result.essential_matrix = none ∧ c6Result.fundamental_matrix = none ∧
     c6Result.stereo_rms_error = none ∧ c6Result.homography_matrix = none ∧
     c6Result.is_valid = false) :=
  ⟨by decide, rfl,
   C6_stereo_requires_both_intrinsics c6Solvers (9, 6) 25 1 "device_1"
     [⟨640, 480, true, [(0, 0)]⟩] [⟨320, 240, true, [(0, 0)]⟩] c6Result
     (by decide) (Or.inr rfl)⟩

theorem computeLoop_isSome (solvers : Solvers) (sess : Session)
    (devs : List String) (s : ManagerState)
    (acc : List (String × DeviceEntry)) (d : String)
    (h : d ∈ devs ∨ (dictFind acc d).isSome = true) :
    (dictFind (computeLoop solvers sess devs s acc).2 d).isSome = true := by
  induction devs generalizing s acc with
  | nil =>
    rcases h with h | h
    · simp at h
    · simpa [computeLoop] using h
  | cons dv ds ih =>
    simp only [computeLoop]
    apply ih
    rcases h with h | h
    · rcases List.mem_cons.mp h with h | h
      · subst h
        right
        rw [dictFind_dictSet]
        simp
      · left; exact h
    · right
      rw [dictFind_dictSet]
      by_cases hd : d = dv <;> simp [hd, h]

/-- C7: with an active session, `compute_calibration` never raises and never
aborts early — every requested device receives a per-device entry, failures
(caught exceptions included) being recorded as failure entries — and the
aggregate success flag equals the conjunction of the per-device success
flags. -/
theorem C7_compute_aggregate_success (solvers : Solvers) (s : ManagerState)
    (sess : Session) (device_id : Option String)
    (hs : s.current_session = some sess) :
    ∃ res s1, compute_calibration solvers s device_id =
        Except.ok (res, s1) ∧
      (∀ d, d ∈ (match device_id with
          | some dv => [dv]
          | none => sess.device_ids) →
        (dictFind res.device_results d).isSome = true) ∧
      res.success = res.device_results.all (fun q => q.2.success) := by
  cases device_id with
  | none =>
    rcases hp : computeLoop solvers sess sess.device_ids s [] with
      ⟨s1, entries⟩
    refine ⟨{ success := entries.all (fun q => q.2.success),
              message :=
                if entries.all (fun q => q.2.success) then
                  "Calibration computed successfully"
                else "Some device calibrations failed",
              device_results := entries }, s1, ?_, ?_, ?_⟩
    · simp only [compute_calibration, hs]
      rw [hp]
    · intro d hd
      have hcov := computeLoop_isSome solvers sess sess.device_ids s [] d
        (Or.inl hd)
      rw [hp] at hcov
      simpa using hcov
    · rfl
  | some dv =>
    rcases hp : computeLoop solvers sess [dv] s [] with ⟨s1, entries⟩
    refine ⟨{ success := entries.all (fun q => q.2.success),
              message :=
                if entries.all (fun q => q.2.success) then
                  "Calibration computed successfully"
                else "Some device calibrations failed",
              device_results := entries }, s1, ?_, ?_, ?_⟩
    · simp only [compute_calibration, hs]
      rw [hp]
    · intro d hd
      have hcov := computeLoop_isSome solvers sess [dv] s [] d (Or.inl hd)
      rw [hp] at hcov
      simpa using hcov
    · rfl

/-- The C7 witness session over two devices. -/
def c7Sess : Session :=
  { session_name := "session_1",
    session_folder := "calibration_data/session_1",
    device_ids := ["device_1", "device_2"], start_time := 0,
    pattern_type := "chessboard", pattern_size := (9, 6), square_size := 25,
    status := "active" }

/-- The C7 witness state: `device_1` has zero captures; `device_2` is missing
from the counter dictionary entirely, so its per-device attempt raises a
`KeyError` that must be caught into a failure entry. -/
def c7State : ManagerState :=
  { initialState "calibration_data" with
      current_session := some c7Sess,
      capture_count := [("device_1", 0)],
      captured_images := [("device_1", emptyFrames)] }

/-- C7 witness: both devices get entries — one insufficient-images failure,
one caught `KeyError` — and the aggregate flag is the conjunction (false). -/
theorem C7_compute_aggregate_success_witness :
    (compute_calibration c2Solvers c7State none).toOption.map
        (fun p => (p.1.success,
          p.1.device_results.all (fun q => q.2.success),
          p.1.device_results.map (fun q => q.1))) =
      some (false, false, ["device_1", "device_2"]) ∧
    (∃ res s1, compute_calibration c2Solvers c7State none =
        Except.ok (res, s1) ∧
      (∀ d, d ∈ c7Sess.device_ids →
        (dictFind res.device_results d).isSome = true) ∧
      res.success = res.device_results.all (fun q => q.2.success)) :=
  ⟨by decide,
   C7_compute_aggregate_success c2Solvers c7State c7Sess none rfl⟩

theorem dictFind_mem {α : Type} {m : List (String × α)} {k : String} {v : α}
    (h : dictFind m k = some v) : ∃ kv, (kv, v) ∈ m := by
  unfold dictFind at h
  cases hf : m.find? (fun p => p.1 = k) with
  | none => simp [hf] at h
  | some pair =>
    rw [hf] at h
    have hv : pair.2 = v := by simpa using h
    refine ⟨pair.1, ?_⟩
    rw [← hv]
    simpa using List.mem_of_find?_eq_some hf

/-- Storing a computed result together with its file write preserves the
persisted-results invariant. -/
theorem persisted_after_store (s : ManagerState) (dev path : String)
    (r : CalibrationResult) (h : resultsPersisted s) :
    resultsPersisted
      { s with
          calibration_results := dictSet s.calibration_results dev r,
          files_calib := dictSet s.files_calib path r,
          persist_log := s.persist_log ++ [r] } := by
  constructor
  · intro p hp
    rcases mem_dictSet hp with hm | he
    · exact List.mem_append_left _ (h.1 p hm)
    · subst he
      exact List.mem_append_right _ (List.mem_singleton_self r)
  · intro f hf
    rcases mem_dictSet hf with hm | he
    · exact List.mem_append_left _ (h.2 f hm)
    · subst he
      exact List.mem_append_right _ (List.mem_singleton_self r)

theorem computeDeviceStep_preserves_persisted (solvers : Solvers)
    (sess : Session) (s : ManagerState) (dev : String)
    (h : resultsPersisted s) :
    resultsPersisted (computeDeviceStep solvers sess s dev).1 := by
  simp only [computeDeviceStep]
  split
  · exact h
  · split
    · split
      · exact h
      · exact h
    · split
      · exact h
      · split
        · exact h
        · split
          · split
            · exact persisted_after_store s dev _ _ h
            · exact persisted_after_store s dev _ _ h
          · exact h

theorem computeLoop_preserves_persisted (solvers : Solvers) (sess : Session)
    (devs : List String) (s : ManagerState)
    (acc : List (String × DeviceEntry)) (h : resultsPersisted s) :
    resultsPersisted (computeLoop solvers sess devs s acc).1 := by
  induction devs generalizing s acc with
  | nil => simpa [computeLoop] using h
  | cons dv ds ih =>
    simp only [computeLoop]
    exact ih _ _ (computeDeviceStep_preserves_persisted solvers sess s dv h)

theorem load_preserves_persisted (s : ManagerState) (dev file : String)
    (h : resultsPersisted s) :
    resultsPersisted (load_calibration_result s dev file).2 := by
  unfold load_calibration_result
  split
  · rename_i r hr
    constructor
    · intro p hp
      rcases mem_dictSet hp with hm | he
      · exact h.1 p hm
      · subst he
        obtain ⟨kv, hkv⟩ := dictFind_mem hr
        exact h.2 (kv, r) hkv
    · exact h.2
  · exact h

/-- C5: `end_calibration_session` returns `{success := false}` and changes
nothing when no session is active; with an active session it stamps the
completion time, status, final per-device totals and calibrated-device ids,
persists that final metadata, then unconditionally clears the in-memory
session state — frame buffers, counters, in-flight flag — irrespective of
calibration outcomes.  The result map survives, but every result in it was
persisted when it was stored: the persisted-results invariant is preserved
by `end` and by the operations that create or import results
(`compute_calibration`, `load_calibration_result`). -/
theorem C5_end_session_reset (s : ManagerState) (t : Nat) :
    (s.current_session = none →
      end_calibration_session s t =
        ({ success := false, message := some "No active session" }, s)) ∧
    (∀ sess, s.current_session = some sess →
      (end_calibration_session s t).1 =
        { success := true,
          session_name := some sess.session_name,
          total_captures := some s.capture_count,
          calibrated_devices :=
            some (s.calibration_results.map (fun p => p.1)),
          session_folder := some sess.session_folder } ∧
      (end_calibration_session s t).2.current_session = none ∧
      (end_calibration_session s t).2.captured_images = [] ∧
      (end_calibration_session s t).2.capture_count = [] ∧
      (end_calibration_session s t).2.is_capturing = false ∧
      dictFind (end_calibration_session s t).2.files_meta
          (sess.session_folder ++ "/session_info.json") =
        some { sess with
                 end_time := some t,
                 status := "completed",
                 total_captures := some s.capture_count,
                 calibrated_devices :=
                   some (s.calibration_results.map (fun p => p.1)) } ∧
      (end_calibration_session s t).2.calibration_results =
        s.calibration_results) ∧
    (resultsPersisted s →
      resultsPersisted (end_calibration_session s t).2) ∧
    (∀ solvers device_id res s1,
      compute_calibration solvers s device_id = Except.ok (res, s1) →
      resultsPersisted s → resultsPersisted s1) ∧
    (∀ dev file, resultsPersisted s →
      resultsPersisted (load_calibration_result s dev file).2) := by
  refine ⟨?_, ?_, ?_, ?_, ?_⟩
  · intro hs
    simp [end_calibration_session, hs]
  · intro sess hs
    refine ⟨?_, ?_, ?_, ?_, ?_, ?_, ?_⟩ <;>
      simp only [end_calibration_session, hs]
    all_goals
      first
        | rfl
        | (rw [dictFind_dictSet]; simp)
  · intro h
    unfold end_calibration_session
    split
    · exact h
    · exact h
  · intro solvers device_id res s1 hok h
    unfold compute_calibration at hok
    split at hok
    · simp at hok
    · cases hok
      exact computeLoop_preserves_persisted solvers _ _ s [] h
  · intro dev file h
    exact load_preserves_persisted s dev file h

instance resultsPersistedDecidable (s : ManagerState) :
    Decidable (resultsPersisted s) := by
  unfold resultsPersisted
  infer_instance

/-- C5 witness session. -/
def c5Sess : Session :=
  { session_name := "session_1",
    session_folder := "calibration_data/session_1",
    device_ids := ["device_1"], start_time := 0,
    pattern_type := "chessboard", pattern_size := (9, 6), square_size := 25,
    status := "active" }

/-- A stored, persisted result for the C5 witness. -/
def c5Result : CalibrationResult :=
  { device_id := "device_1", rgb_camera_matrix := some [[1]],
    thermal_camera_matrix := some [[1]] }

/-- The C5 witness state: an active session with one stored result whose
file write is on record. -/
def c5State : ManagerState :=
  { initialState "calibration_data" with
      current_session := some c5Sess,
      capture_count := [("device_1", 12)],
      captured_images := [("device_1", emptyFrames)],
      calibration_results := [("device_1", c5Result)],
      files_calib :=
        [("calibration_data/session_1/calibration_device_1.json", c5Result)],
      persist_log := [c5Result] }

/-- C5 witness: ending the witness session clears buffers, counters and the
in-flight flag, keeps the stored result, and the persisted-results invariant
holds afterwards. -/
theorem C5_end_session_reset_witness :
    (end_calibration_session c5State 7).1.success = true ∧
    (end_calibration_session c5State 7).2.current_session = none ∧
    (end_calibration_session c5State 7).2.captured_images = [] ∧
    (end_calibration_session c5State 7).2.capture_count = [] ∧
    (end_calibration_session c5State 7).2.is_capturing = false ∧
    (end_calibration_session c5State 7).2.calibration_results =
      [("device_1", c5Result)] ∧
    resultsPersisted (end_calibration_session c5State 7).2 := by
  have h := (C5_end_session_reset c5State 7).2.1 c5Sess rfl
  have hp := (C5_end_session_reset c5State 7).2.2.1 (by decide)
  exact ⟨by rw [h.1], h.2.1, h.2.2.1, h.2.2.2.1, h.2.2.2.2.1,
         h.2.2.2.2.2.2, hp⟩

/-- C10 witness: a result with a perfect RGB reprojection error of `0.0` and
small nonzero thermal/stereo errors is classified POOR. -/
theorem C10_zero_error_is_poor_witness :
    (assess_calibration_quality
        { device_id := "device_1", rgb_rms_error := some 0,
          thermal_rms_error := some (1/5),
          stereo_rms_error := some (1/5) }).quality_score = "POOR" ∧
    (assess_calibration_quality
        { device_id := "device_1", rgb_rms_error := some 0,
          thermal_rms_error := some (1/5),
          stereo_rms_error := some (1/5) }).rgb_error = ErrVal.inf :=
  ⟨(C10_zero_error_is_poor _ (Or.inl rfl)).1,
   (C10_zero_error_is_poor _ (Or.inl rfl)).2.1 rfl⟩

end Calibration
